import Mathlib

set_option maxRecDepth 16384

/-!
Verification of the SafeNet content-classification pipeline
(`supabase/functions/analyze-content/index.ts`).

The TypeScript source is shallowly embedded below: strings are Lean
strings (processed as lists of characters), JavaScript 32-bit integer
arithmetic is `Int` with explicit wrapping, and JavaScript numbers used
for confidence scores are modelled as rationals.  The request handler's
external effects (environment credential, media fetch, completion call)
are modelled by an explicit environment record, and the handler also
reports how many outbound network calls it performed.
-/

namespace SafeNet

/-! ## Basic character and string utilities (JavaScript semantics) -/

/-- JavaScript whitespace characters recognised by the source's regexes,
trim and split operations (the common ASCII ones plus NBSP). -/
def jsIsWs (c : Char) : Bool :=
  c == ' ' || c == '\t' || c == '\n' || c == '\r' ||
  c == '\x0b' || c == '\x0c' || c == ' '

/-- JavaScript String.prototype.trim on a character list. -/
def jsTrimList (l : List Char) : List Char :=
  ((l.dropWhile jsIsWs).reverse.dropWhile jsIsWs).reverse

/-- JavaScript String.prototype.trim. -/
def jsTrim (s : String) : String :=
  String.mk (jsTrimList s.data)

/-- Case-insensitive prefix test: the pattern is given in lower case and
each text character is case-folded before comparison (models matching a
literal with the regex i flag, or lowercasing the haystack first). -/
def ciStarts : List Char → List Char → Bool
  | [], _ => true
  | _ :: _, [] => false
  | p :: ps, c :: cs => p == c.toLower && ciStarts ps cs

/-- Case-insensitive substring test, models
lowerCasedText.includes(pattern) for a lower-case pattern. -/
def ciContains (pat : List Char) : List Char → Bool
  | [] => ciStarts pat []
  | c :: cs => ciStarts pat (c :: cs) || ciContains pat cs

/-- Lower-casing of a string via per-character case folding, models
String.prototype.toLowerCase on the ASCII strings the source uses. -/
def lowerStr (s : String) : String :=
  String.mk (s.data.map Char.toLower)

/-! ## The deterministic fallback hash (createMockAnalysis, lines 383-387) -/

/-- Wrap an integer to JavaScript 32-bit signed range (the | 0 coercion). -/
def toInt32 (n : Int) : Int :=
  (n + 2 ^ 31) % 2 ^ 32 - 2 ^ 31

/-- The UTF-16 unit the source reads per iterated code point:
Array.from(content) yields code points and charCodeAt(0) returns the
first UTF-16 code unit (the high surrogate for astral code points). -/
def jsCharCode (c : Char) : Nat :=
  if c.toNat < 0x10000 then c.toNat else 0xD800 + (c.toNat - 0x10000) / 1024

/-- One step of the reduce in createMockAnalysis:
hash = ((hash << 5) - hash + char.charCodeAt(0)) | 0. -/
def hashStep (h : Int) (c : Char) : Int :=
  toInt32 (toInt32 (h * 32) - h + (jsCharCode c : Int))

/-- The order-preserving character hash of createMockAnalysis. -/
def contentHash (content : String) : Int :=
  content.data.foldl hashStep 0

/-! ## Data model -/

inductive ContentType
  | image
  | video
  | text
deriving DecidableEq

/-- The string the TypeScript passes around for contentType. -/
def ContentType.str : ContentType → String
  | .image => "image"
  | .video => "video"
  | .text => "text"

structure RequestBody where
  content : String
  contentType : ContentType
deriving DecidableEq

/-- The AnalysisResult record returned by the function (confidence is a
JavaScript number, modelled as a rational). -/
structure AnalysisResult where
  safe : Bool
  reason : String
  category : String
  confidence : ℚ
  aiResponse : Option String
  detailedAnalysis : Option String
deriving DecidableEq

/-! ## Verdict extraction from a raw provider response -/

/-- Safety determination (lines 239-241): safe iff the lower-cased
response contains none of the three keywords. -/
def isSafe (resp : String) : Bool :=
  !(ciContains "unsafe".data resp.data ||
    ciContains "violate".data resp.data ||
    ciContains "inappropriate".data resp.data)

/-- Characters matched by the regex dot without the s flag. -/
def dotOk (c : Char) : Bool :=
  c != '\n' && c != '\r' && c != ' ' && c != ' '

/-- The lazy tail of the reason regexes: consumes at least one
dot-matching character, then stops at the first sentence terminator;
returns the capture (shortest match, per the lazy quantifier). -/
def capTermGo (acc : List Char) : List Char → Option (List Char)
  | [] => none
  | c :: cs =>
    if (c == '.' || c == '!' || c == '?') && acc ≠ [] then some acc.reverse
    else if dotOk c then capTermGo (c :: acc) cs
    else none

/-- Leftmost match of the because-regex: at each position try the
case-insensitive literal and then the lazy capture, advancing on failure. -/
def firstBecause : List Char → Option (List Char)
  | [] => none
  | c :: cs =>
    match (if ciStarts "because ".data (c :: cs)
           then capTermGo [] ((c :: cs).drop 8) else none) with
    | some g => some g
    | none => firstBecause cs

/-- First elements of a greedy optional character: try consuming it
first, then leave it (the backtracking order of the regex engine). -/
def optChar (p : Char) (l : List Char) : List (List Char) :=
  match l with
  | [] => [[]]
  | c :: cs => if c.toLower == p then [cs, c :: cs] else [c :: cs]

/-- Remainders after one-or-more whitespace, longest first (greedy
backtracking order of a whitespace-plus quantifier); empty if the text
does not start with whitespace. -/
def wsPlusOpts (l : List Char) : List (List Char) :=
  match l with
  | [] => []
  | c :: cs =>
    if jsIsWs c then (wsPlusOpts cs) ++ [cs]
    else []

/-- First successful result of a fallible function over candidates. -/
def firstSome (f : List Char → Option (List Char)) :
    List (List Char) → Option (List Char)
  | [] => none
  | x :: xs =>
    match f x with
    | some g => some g
    | none => firstSome f xs

/-- Match attempt of the issue-regex tail after the literal: optional s,
optional colon, one-or-more whitespace, then the lazy capture. -/
def issueTail (l : List Char) : Option (List Char) :=
  firstSome
    (fun l1 => firstSome
      (fun l2 => firstSome (capTermGo []) (wsPlusOpts l2))
      (optChar ':' l1))
    (optChar 's' l)

/-- Leftmost match of the issue-regex. -/
def firstIssue : List Char → Option (List Char)
  | [] => none
  | c :: cs =>
    match (if ciStarts "issue".data (c :: cs)
           then issueTail ((c :: cs).drop 5) else none) with
    | some g => some g
    | none => firstIssue cs

/-- Reason extraction for an unsafe response (lines 244-260): the
because-capture, else the issue-capture guarded by an includes check,
else the literal fallback. -/
def extractReasonUnsafe (resp : String) : String :=
  match firstBecause resp.data with
  | some g => String.mk (jsTrimList g)
  | none =>
    if ciContains "issue".data resp.data then
      match firstIssue resp.data with
      | some g => String.mk (jsTrimList g)
      | none => "Potential policy violation detected"
    else "Potential policy violation detected"

/-- Modelled from the spec (section 4.3, reason extraction): the
priority order because-capture, then issue-capture, then the literal
fallback, with no separate includes guard. -/
def reasonSpec (resp : String) : String :=
  match firstBecause resp.data with
  | some g => String.mk (jsTrimList g)
  | none =>
    match firstIssue resp.data with
    | some g => String.mk (jsTrimList g)
    | none => "Potential policy violation detected"

/-- Category determination (lines 339-355). -/
def determineCategoryFromAnalysis (resp : String) (contentType : ContentType)
    (safeFlag : Bool) : String :=
  if safeFlag then "safe"
  else
    let has := fun (pat : String) => ciContains pat.data resp.data
    if has "violence" || has "graphic" || has "harmful" then
      contentType.str ++ "_policy_violation"
    else if has "sexual" || has "explicit" || has "adult" then
      contentType.str ++ "_adult_content"
    else if has "hate" || has "discriminat" || has "offensive" then
      contentType.str ++ "_hate_speech"
    else contentType.str ++ "_policy_violation"

/-- Confidence scoring (lines 358-377): base by safety, one additive
adjustment chosen by the certainty-language priority chain, then the
clamp to the interval from one half to ninety-nine hundredths. -/
def calculateConfidence (resp : String) (safeFlag : Bool) : ℚ :=
  let has := fun (pat : String) => ciContains pat.data resp.data
  let base : ℚ := if safeFlag then 8 / 10 else 75 / 100
  let c : ℚ :=
    if has "definitely" || has "certainly" || has "clearly" then base + 15 / 100
    else if has "likely" || has "probably" then base + 5 / 100
    else if has "possibly" || has "might" || has "could be" then base - 1 / 10
    else if has "uncertain" || has "unclear" then base - 2 / 10
    else base
  max (1 / 2) (min (99 / 100) c)

/-- Modelled from the spec (section 4.3, confidence scoring): the
adjustment alone, as the spec phrases the priority chain. -/
def confidenceAdjustSpec (resp : String) : ℚ :=
  let has := fun (pat : String) => ciContains pat.data resp.data
  if has "definitely" || has "certainly" || has "clearly" then 15 / 100
  else if has "likely" || has "probably" then 5 / 100
  else if has "possibly" || has "might" || has "could be" then -(1 / 10)
  else if has "uncertain" || has "unclear" then -(2 / 10)
  else 0

/-! ## Detailed-analysis extraction (extractDetailedAnalysis, lines 301-336)

Each section regex is: the section title as a case-insensitive literal,
a greedy run of colons and whitespace, a lazy dot-all capture, and an
alternation of terminators (the other three section titles, digits
followed by a dot, a blank line, or end of input).  Since the capture is
lazy and end of input is an alternative, the regex matches at the first
case-insensitive occurrence of the title, and the capture ends at the
first position where some terminator matches. -/

/-- One-or-more digits followed by a literal dot. -/
def digitsDot (l : List Char) : Bool :=
  (l.takeWhile Char.isDigit) ≠ [] &&
  (l.dropWhile Char.isDigit).head? == some '.'

/-- Does a terminator of the section regex match at this position? -/
def isTerm (others : List (List Char)) (l : List Char) : Bool :=
  others.any (fun o => ciStarts o l) || digitsDot l ||
  (match l with
   | '\n' :: '\n' :: _ => true
   | _ => false) ||
  l.isEmpty

/-- The lazy dot-all capture: grow the group until a terminator matches. -/
def lazyCaptureGo (others : List (List Char)) (acc : List Char) :
    List Char → List Char
  | [] => acc.reverse
  | c :: cs =>
    if isTerm others (c :: cs) then acc.reverse
    else lazyCaptureGo others (c :: acc) cs

/-- The greedy colon-and-whitespace run after the section title. -/
def skipColonWs (l : List Char) : List Char :=
  l.dropWhile (fun c => c == ':' || jsIsWs c)

/-- The capture group of one section regex: none when the title does not
occur (case-insensitively); otherwise the lazily captured group at the
first occurrence.  -/
def sectionCapture (hdr : List Char) (others : List (List Char)) :
    List Char → Option (List Char)
  | [] => none
  | c :: cs =>
    if ciStarts hdr (c :: cs) then
      some (lazyCaptureGo others []
        (skipColonWs ((c :: cs).drop hdr.length)))
    else sectionCapture hdr others cs

def hdrOverall : List Char := "overall assessment".data
def hdrIssues : List Char := "specific issues".data
def hdrReasoning : List Char := "reasoning".data
def hdrRecommend : List Char := "recommendations".data

def othersOverall : List (List Char) := [hdrIssues, hdrReasoning, hdrRecommend]
def othersIssues : List (List Char) := [hdrOverall, hdrReasoning, hdrRecommend]
def othersReasoning : List (List Char) := [hdrOverall, hdrIssues, hdrRecommend]
def othersRecommend : List (List Char) := [hdrOverall, hdrIssues, hdrReasoning]

/-- The placeholder rendered for a missing or empty section. -/
def noProvided (title : String) : String :=
  "No " ++ lowerStr title ++ " provided."

/-- The body rendered for one section: the trimmed capture when the
regex matched with a capture that is non-empty before and after
trimming, the placeholder otherwise. -/
def sectionBody (title : String) (hdr : List Char)
    (others : List (List Char)) (resp : String) : String :=
  match sectionCapture hdr others resp.data with
  | some cap =>
    if cap.isEmpty then noProvided title
    else
      let c := jsTrimList cap
      if c.isEmpty then noProvided title else String.mk c
  | none => noProvided title

/-- One appended section line of the structured analysis. -/
def sectionPiece (title : String) (hdr : List Char)
    (others : List (List Char)) (resp : String) : String :=
  "**" ++ title ++ "**: " ++ sectionBody title hdr others resp ++ "\n\n"

/-- The accumulated structured analysis over the four sections. -/
def structuredAnalysis (resp : String) : String :=
  sectionPiece "Overall Assessment" hdrOverall othersOverall resp ++
  sectionPiece "Specific Issues" hdrIssues othersIssues resp ++
  sectionPiece "Reasoning" hdrReasoning othersReasoning resp ++
  sectionPiece "Recommendations" hdrRecommend othersRecommend resp

/-- The global multiline replacement of leading enumeration markers
(digits, a dot, then any following whitespace) at line starts; the
boolean tracks whether the current position is a line start, and the
fuel is the length of the list (each step consumes at least one
character, so the fuel never runs out from the wrapper below). -/
def removeNumGo : Nat → Bool → List Char → List Char
  | 0, _, l => l
  | _ + 1, _, [] => []
  | f + 1, atStart, c :: cs =>
    if atStart && c.isDigit then
      match (c :: cs).dropWhile Char.isDigit with
      | '.' :: rs =>
        removeNumGo f ((rs.takeWhile jsIsWs).getLast? == some '\n')
          (rs.dropWhile jsIsWs)
      | _ => c :: removeNumGo f false cs
    else c :: removeNumGo f (c == '\n') cs

/-- Collapse runs of three or more newlines to exactly two (the second
replace of the raw-text fallback); the counter is the number of
immediately preceding newlines already emitted or skipped. -/
def collapseGo : Nat → List Char → List Char
  | _, [] => []
  | run, c :: cs =>
    if c == '\n' then
      if run ≥ 2 then collapseGo (run + 1) cs
      else '\n' :: collapseGo (run + 1) cs
    else c :: collapseGo 0 cs

/-- The raw-text fallback branch: strip leading enumeration markers and
normalise excess blank lines. -/
def cleanRaw (s : String) : String :=
  String.mk (collapseGo 0 (removeNumGo s.data.length true s.data))

/-- extractDetailedAnalysis: build the structured four-section analysis;
if that string were empty, return the cleaned raw text instead. -/
def extractDetailedAnalysis (resp : String) : String :=
  if structuredAnalysis resp = "" then cleanRaw resp
  else structuredAnalysis resp

/-! ## The fallback synthesizer (createMockAnalysis, lines 380-435) -/

/-- The four-section analysis of a safe fallback verdict. -/
def mockSafeDetailed (contentType : ContentType) : String :=
  "**Overall Assessment**: The content appears to be safe and does not violate any content policies.\n\n" ++
  "**Specific Issues**: No issues were identified in this content.\n\n" ++
  "**Reasoning**: After reviewing the " ++ contentType.str ++
  ", I found no elements that would violate platform policies. The content is appropriate for general audiences.\n\n" ++
  "**Recommendations**: This content can be safely published without any modifications."

/-- The reason of an unsafe fallback verdict, by content type. -/
def mockUnsafeReason : ContentType → String
  | .image => "Image may contain inappropriate visual elements"
  | .video => "Video may contain concerning scenes or content"
  | .text => "Text may contain potentially harmful language"

/-- The category of an unsafe fallback verdict, by content type. -/
def mockUnsafeCategory : ContentType → String
  | .image => "visual_policy_violation"
  | .video => "video_policy_violation"
  | .text => "text_policy_violation"

/-- The four-section analysis of an unsafe fallback verdict. -/
def mockUnsafeDetailed : ContentType → String
  | .image =>
    "**Overall Assessment**: This image appears to contain content that may violate platform policies.\n\n" ++
    "**Specific Issues**: Potentially inappropriate visual elements that may not be suitable for all audiences.\n\n" ++
    "**Reasoning**: The visual content contains elements that could be interpreted as violating community standards, specifically related to inappropriate imagery.\n\n" ++
    "**Recommendations**: Review the image manually before publication or consider using a different image."
  | .video =>
    "**Overall Assessment**: This video may contain content that violates platform policies.\n\n" ++
    "**Specific Issues**: Potentially concerning scenes or sequences that may not be appropriate for general viewing.\n\n" ++
    "**Reasoning**: Certain segments of this video contain elements that could be interpreted as violating community guidelines.\n\n" ++
    "**Recommendations**: Review the video manually, particularly at key segments, or consider editing before publication."
  | .text =>
    "**Overall Assessment**: This text contains potentially harmful language that may violate platform policies.\n\n" ++
    "**Specific Issues**: Language that could be interpreted as inappropriate or harmful to certain audiences.\n\n" ++
    "**Reasoning**: The text includes phrases or terms that could violate community guidelines around respectful communication.\n\n" ++
    "**Recommendations**: Consider revising the language used in this content before publication."

/-- The fallback marker text around the reason in aiResponse. -/
def mockAiResponse (reason : String) : String :=
  "Mock analysis: " ++ reason ++
  ". This is a fallback response as the AI service is currently unavailable."

/-- The fallback synthesizer: deterministic verdict from the content
hash; remainder zero modulo five marks the content unsafe. -/
def createMockAnalysis (content : String) (contentType : ContentType) :
    AnalysisResult :=
  let h := (contentHash content).natAbs
  if h % 5 ≠ 0 then
    { safe := true
      reason := "Content appears to be safe"
      category := "safe"
      confidence := 85 / 100 + ((h % 15 : Nat) : ℚ) / 100
      aiResponse := some (mockAiResponse "Content appears to be safe")
      detailedAnalysis := some (mockSafeDetailed contentType) }
  else
    { safe := false
      reason := mockUnsafeReason contentType
      category := mockUnsafeCategory contentType
      confidence := 65 / 100 + ((h % 20 : Nat) : ℚ) / 100
      aiResponse := some (mockAiResponse (mockUnsafeReason contentType))
      detailedAnalysis := some (mockUnsafeDetailed contentType) }

/-! ## The request handler (serve callback, lines 22-298) -/

/-- The AnalysisResult assembled from a successful provider response
(lines 267-274). -/
def analysisResultOf (resp : String) (contentType : ContentType) :
    AnalysisResult :=
  let safeFlag := isSafe resp
  { safe := safeFlag
    reason := if safeFlag then "Content appears to be safe"
              else extractReasonUnsafe resp
    category := determineCategoryFromAnalysis resp contentType safeFlag
    confidence := calculateConfidence resp safeFlag
    aiResponse := some resp
    detailedAnalysis := some (extractDetailedAnalysis resp) }

/-- Outcome of the media fetch of an image URL: the fetch throws, the
response is not ok, or bytes are obtained and base64-encoded. -/
inductive MediaOutcome
  | throwsErr
  | httpNotOk
  | okBytes (b64 : String)
deriving DecidableEq

/-- Outcome of the completion call: the fetch throws, a non-ok status,
the body fails to parse as JSON, the JSON lacks candidate text, or a
raw text answer. -/
inductive CompletionOutcome
  | throwsErr
  | httpErr (status : Nat)
  | badJson
  | noCandidates
  | ok (text : String)
deriving DecidableEq

/-- The external world the handler interacts with: the configured
credential and the outcomes of the two possible outbound calls. -/
structure Env where
  apiKey : String
  mediaFetch : MediaOutcome
  completion : CompletionOutcome
deriving DecidableEq

/-- An HTTP response of the handler: a 200 verdict, or an error object
with a status, error text, safe flag and reason. -/
inductive HttpOut
  | verdict (r : AnalysisResult)
  | errorResp (status : Nat) (error : String) (safeFlag : Bool) (reason : String)
deriving DecidableEq

/-- The completion call and the processing of its response (lines
210-285): every failure kind falls back to the synthesized verdict; the
network-call counter is incremented by the one call made here. -/
def runCompletion (content : String) (contentType : ContentType)
    (env : Env) (calls : Nat) : HttpOut × Nat :=
  match env.completion with
  | .ok text => (.verdict (analysisResultOf text contentType), calls + 1)
  | _ => (.verdict (createMockAnalysis content contentType), calls + 1)

/-- The payload-construction and dispatch stage once the credential is
present (lines 82-285), including the image media handling. -/
def dispatch (content : String) (contentType : ContentType) (env : Env) :
    HttpOut × Nat :=
  match contentType with
  | .image =>
    if content.startsWith "http" then
      match env.mediaFetch with
      | .okBytes _ => runCompletion content .image env 1
      | _ => (.verdict (createMockAnalysis content .image), 1)
    else if content.startsWith "data:image" then
      match (content.splitOn ",").drop 1 with
      | [] => (.verdict (createMockAnalysis content .image), 0)
      | p :: _ =>
        if p = "" then (.verdict (createMockAnalysis content .image), 0)
        else runCompletion content .image env 0
    else runCompletion content .image env 0
  | t => runCompletion content t env 0

/-- The serve handler on a parsed (or unparseable) request body,
returning the HTTP response together with the number of outbound
network calls performed. -/
def handler (body : Option RequestBody) (env : Env) : HttpOut × Nat :=
  match body with
  | none => (.errorResp 400 "Invalid request body" false "Invalid request format", 0)
  | some rb =>
    if rb.content = "" then
      (.errorResp 400 "Content is required" false "Missing content", 0)
    else if env.apiKey = "" ∨ jsTrim env.apiKey = "" then
      (.verdict (createMockAnalysis rb.content rb.contentType), 0)
    else dispatch rb.content rb.contentType env

/-! ## Helper lemmas -/

theorem dataAppend (a b : String) : (a ++ b).data = a.data ++ b.data := by
  cases a
  cases b
  rfl

theorem data_eq_nil_iff (s : String) : s.data = [] ↔ s = "" := by
  cases s with
  | mk d =>
    constructor
    · intro h
      rw [show ("" : String) = String.mk [] from rfl]
      exact congrArg String.mk h
    · intro h
      rw [h]

theorem append_ne_empty_left (a b : String) (h : a ≠ "") : a ++ b ≠ "" := by
  intro he
  apply h
  have hd := congrArg String.data he
  rw [dataAppend] at hd
  have h2 : a.data = [] := (List.append_eq_nil.mp hd).1
  exact (data_eq_nil_iff a).mp h2

theorem mk_ne_empty (l : List Char) (h : l ≠ []) : String.mk l ≠ "" := by
  intro he
  exact h ((data_eq_nil_iff (String.mk l)).mpr he)

theorem noProvided_ne (title : String) : noProvided title ≠ "" := by
  unfold noProvided
  apply append_ne_empty_left
  apply append_ne_empty_left
  decide

theorem sectionBody_ne (title : String) (hdr : List Char)
    (others : List (List Char)) (resp : String) :
    sectionBody title hdr others resp ≠ "" := by
  unfold sectionBody
  cases hc : sectionCapture hdr others resp.data with
  | none => exact noProvided_ne title
  | some cap =>
    by_cases h1 : cap.isEmpty
    · simpa [h1] using noProvided_ne title
    · simp only [h1, Bool.false_eq_true, if_false]
      by_cases h2 : (jsTrimList cap).isEmpty
      · simpa [h2] using noProvided_ne title
      · simp only [h2, Bool.false_eq_true, if_false]
        exact mk_ne_empty _ (by simpa using h2)

theorem sectionPiece_ne (title : String) (hdr : List Char)
    (others : List (List Char)) (resp : String) :
    sectionPiece title hdr others resp ≠ "" := by
  unfold sectionPiece
  apply append_ne_empty_left
  apply append_ne_empty_left
  apply append_ne_empty_left
  apply append_ne_empty_left
  decide

theorem structuredAnalysis_ne (resp : String) : structuredAnalysis resp ≠ "" := by
  unfold structuredAnalysis
  apply append_ne_empty_left
  apply append_ne_empty_left
  apply append_ne_empty_left
  exact sectionPiece_ne _ _ _ _

theorem extract_eq_structured (resp : String) :
    extractDetailedAnalysis resp = structuredAnalysis resp := by
  unfold extractDetailedAnalysis
  rw [if_neg (structuredAnalysis_ne resp)]

theorem sectionCapture_none (hdr : List Char) (others : List (List Char)) :
    ∀ l : List Char, ciContains hdr l = false → sectionCapture hdr others l = none := by
  intro l
  induction l with
  | nil => intro _; rfl
  | cons c cs ih =>
    intro h
    rw [ciContains, Bool.or_eq_false_iff] at h
    rw [sectionCapture, if_neg (by simp [h.1]), ih h.2]

theorem sectionBody_of_none (title : String) (hdr : List Char)
    (others : List (List Char)) (resp : String)
    (h : sectionCapture hdr others resp.data = none) :
    sectionBody title hdr others resp = noProvided title := by
  unfold sectionBody
  rw [h]

theorem firstIssue_none :
    ∀ l : List Char, ciContains "issue".data l = false → firstIssue l = none := by
  intro l
  induction l with
  | nil => intro _; rfl
  | cons c cs ih =>
    intro h
    rw [ciContains, Bool.or_eq_false_iff] at h
    rw [firstIssue, if_neg (by simp [h.1])]
    exact ih h.2

theorem mock_safe_iff (c : String) (t : ContentType) :
    (createMockAnalysis c t).safe = true ↔ (contentHash c).natAbs % 5 ≠ 0 := by
  by_cases h : (contentHash c).natAbs % 5 = 0 <;> simp [createMockAnalysis, h]

theorem mock_safe_t (c : String) (t t' : ContentType) :
    (createMockAnalysis c t).safe = (createMockAnalysis c t').safe := by
  by_cases h : (contentHash c).natAbs % 5 = 0 <;> simp [createMockAnalysis, h]

theorem mock_confidence_eq (c : String) (t : ContentType) :
    (createMockAnalysis c t).confidence =
      if (contentHash c).natAbs % 5 ≠ 0 then
        85 / 100 + (((contentHash c).natAbs % 15 : Nat) : ℚ) / 100
      else 65 / 100 + (((contentHash c).natAbs % 20 : Nat) : ℚ) / 100 := by
  by_cases h : (contentHash c).natAbs % 5 = 0 <;> simp [createMockAnalysis, h]

theorem mock_conf_safe_bounds (c : String) (t : ContentType)
    (h : (createMockAnalysis c t).safe = true) :
    85 / 100 ≤ (createMockAnalysis c t).confidence ∧
      (createMockAnalysis c t).confidence ≤ 99 / 100 := by
  have hm := (mock_safe_iff c t).mp h
  rw [mock_confidence_eq, if_pos hm]
  have h15 : (((contentHash c).natAbs % 15 : Nat) : ℚ) ≤ 14 := by
    exact_mod_cast Nat.le_of_lt_succ (Nat.mod_lt _ (by norm_num))
  have h0 : (0 : ℚ) ≤ (((contentHash c).natAbs % 15 : Nat) : ℚ) := by positivity
  constructor <;> linarith

theorem mock_conf_unsafe_bounds (c : String) (t : ContentType)
    (h : (createMockAnalysis c t).safe = false) :
    65 / 100 ≤ (createMockAnalysis c t).confidence ∧
      (createMockAnalysis c t).confidence ≤ 84 / 100 := by
  have hm : (contentHash c).natAbs % 5 = 0 := by
    by_contra hmc
    have h2 := (mock_safe_iff c t).mpr hmc
    rw [h] at h2
    simp at h2
  rw [mock_confidence_eq, if_neg (by simp [hm])]
  have h19 : (((contentHash c).natAbs % 20 : Nat) : ℚ) ≤ 19 := by
    exact_mod_cast Nat.le_of_lt_succ (Nat.mod_lt _ (by norm_num))
  have h0 : (0 : ℚ) ≤ (((contentHash c).natAbs % 20 : Nat) : ℚ) := by positivity
  constructor <;> linarith

theorem calc_conf_bounds (resp : String) (s : Bool) :
    1 / 2 ≤ calculateConfidence resp s ∧ calculateConfidence resp s ≤ 99 / 100 := by
  unfold calculateConfidence
  refine ⟨le_max_left _ _, max_le (by norm_num) (min_le_left _ _)⟩

theorem runCompletion_cases (c : String) (t : ContentType) (env : Env) (calls : Nat) :
    (runCompletion c t env calls).1 = HttpOut.verdict (createMockAnalysis c t) ∨
      ∃ text, env.completion = CompletionOutcome.ok text ∧
        (runCompletion c t env calls).1 = HttpOut.verdict (analysisResultOf text t) := by
  cases hco : env.completion with
  | ok text => exact Or.inr ⟨text, rfl, by simp [runCompletion, hco]⟩
  | throwsErr => exact Or.inl (by simp [runCompletion, hco])
  | httpErr s => exact Or.inl (by simp [runCompletion, hco])
  | badJson => exact Or.inl (by simp [runCompletion, hco])
  | noCandidates => exact Or.inl (by simp [runCompletion, hco])

theorem dispatch_cases (c : String) (t : ContentType) (env : Env) :
    (dispatch c t env).1 = HttpOut.verdict (createMockAnalysis c t) ∨
      ∃ text, env.completion = CompletionOutcome.ok text ∧
        (dispatch c t env).1 = HttpOut.verdict (analysisResultOf text t) := by
  cases t with
  | image =>
    by_cases h1 : c.startsWith "http"
    · cases hm : env.mediaFetch with
      | okBytes b => simpa [dispatch, h1, hm] using runCompletion_cases c .image env 1
      | throwsErr => exact Or.inl (by simp [dispatch, h1, hm])
      | httpNotOk => exact Or.inl (by simp [dispatch, h1, hm])
    · by_cases h2 : c.startsWith "data:image"
      · cases hs : (c.splitOn ",").drop 1 with
        | nil => exact Or.inl (by simp [dispatch, h1, h2, hs])
        | cons p rest =>
          by_cases hp : p = ""
          · exact Or.inl (by simp [dispatch, h1, h2, hs, hp])
          · simpa [dispatch, h1, h2, hs, hp] using runCompletion_cases c .image env 0
      · simpa [dispatch, h1, h2] using runCompletion_cases c .image env 0
  | video => simpa [dispatch] using runCompletion_cases c .video env 0
  | text => simpa [dispatch] using runCompletion_cases c .text env 0

theorem handler_cases (env : Env) (c : String) (t : ContentType) (h : c ≠ "") :
    (handler (some ⟨c, t⟩) env).1 = HttpOut.verdict (createMockAnalysis c t) ∨
      ∃ text, env.completion = CompletionOutcome.ok text ∧
        (handler (some ⟨c, t⟩) env).1 = HttpOut.verdict (analysisResultOf text t) := by
  by_cases hk : env.apiKey = "" ∨ jsTrim env.apiKey = ""
  · exact Or.inl (by simp [handler, h, hk])
  · simpa [handler, h, hk] using dispatch_cases c t env

/-! ## Claim theorems -/

/-- C1: for every valid submission (non-empty content, any of the three
content types) and every outcome of the external world, the classify
pipeline returns exactly one verdict response and never an error
response: its result is either the Fallback Synthesizer's verdict (all
five error kinds are caught and converted to it) or, only when the
completion call succeeded, the extractor's verdict on the raw text. -/
theorem classify_always_verdict (env : Env) (c : String) (t : ContentType)
    (h : c ≠ "") :
    (handler (some ⟨c, t⟩) env).1 = HttpOut.verdict (createMockAnalysis c t) ∨
      ∃ text, env.completion = CompletionOutcome.ok text ∧
        (handler (some ⟨c, t⟩) env).1 = HttpOut.verdict (analysisResultOf text t) :=
  handler_cases env c t h

/-- Witness for C1 at a concrete submission and an unconfigured
environment. -/
theorem classify_always_verdict_witness :
    ("x" : String) ≠ "" ∧
      ((handler (some ⟨"x", ContentType.text⟩)
          ⟨"", MediaOutcome.throwsErr, CompletionOutcome.throwsErr⟩).1 =
            HttpOut.verdict (createMockAnalysis "x" ContentType.text) ∨
        ∃ text,
          (⟨"", MediaOutcome.throwsErr, CompletionOutcome.throwsErr⟩ : Env).completion =
              CompletionOutcome.ok text ∧
            (handler (some ⟨"x", ContentType.text⟩)
                ⟨"", MediaOutcome.throwsErr, CompletionOutcome.throwsErr⟩).1 =
              HttpOut.verdict (analysisResultOf text ContentType.text)) :=
  ⟨by decide,
    classify_always_verdict ⟨"", MediaOutcome.throwsErr, CompletionOutcome.throwsErr⟩
      "x" ContentType.text (by decide)⟩

/-- C2: the Fallback Synthesizer is deterministic (repeated invocations
on the same input are identical), and its safe/unsafe decision and its
confidence are functions of the content alone: the decision is that the
order-preserving character hash, reduced modulo five, is non-zero (a
zero remainder marks the content unsafe), and neither field depends on
the content type. -/
theorem mock_deterministic_hash (c : String) (t t' : ContentType) :
    createMockAnalysis c t = createMockAnalysis c t ∧
      ((createMockAnalysis c t).safe = true ↔ (contentHash c).natAbs % 5 ≠ 0) ∧
      (createMockAnalysis c t).safe = (createMockAnalysis c t').safe ∧
      (createMockAnalysis c t).confidence = (createMockAnalysis c t').confidence :=
  ⟨rfl, mock_safe_iff c t, mock_safe_t c t t', by
    by_cases h : (contentHash c).natAbs % 5 = 0 <;> simp [createMockAnalysis, h]⟩

/-- Witness for C2: the hash of a concrete content decides its fallback
safety flag. -/
theorem mock_deterministic_hash_witness :
    (createMockAnalysis "hello" ContentType.text).safe = true :=
  (mock_deterministic_hash "hello" ContentType.text ContentType.video).2.1.mpr
    (by decide)

/-- C3 counterexample: a raw response in which none of the four section
headers occurs, whose extracted detailedAnalysis is not the cleaned raw
text (the placeholder structure is returned instead), refuting the claim
as stated. -/
theorem extract_raw_text_cex :
    (ciContains hdrOverall "hello".data = false ∧
      ciContains hdrIssues "hello".data = false ∧
      ciContains hdrReasoning "hello".data = false ∧
      ciContains hdrRecommend "hello".data = false) ∧
    cleanRaw "hello" = "hello" ∧
    extractDetailedAnalysis "hello" ≠ cleanRaw "hello" := by
  refine ⟨by decide, by decide, ?_⟩
  decide

/-- C3 (amended): when none of the four section headers occurs in the
raw response, the extracted detailedAnalysis is the fixed four-section
placeholder structure (each section rendered as not provided), not the
cleaned raw text: the raw-text fallback branch never executes. -/
theorem extract_no_headers_placeholders (resp : String)
    (h1 : ciContains hdrOverall resp.data = false)
    (h2 : ciContains hdrIssues resp.data = false)
    (h3 : ciContains hdrReasoning resp.data = false)
    (h4 : ciContains hdrRecommend resp.data = false) :
    extractDetailedAnalysis resp =
      "**Overall Assessment**: No overall assessment provided.\n\n" ++
      "**Specific Issues**: No specific issues provided.\n\n" ++
      "**Reasoning**: No reasoning provided.\n\n" ++
      "**Recommendations**: No recommendations provided.\n\n" := by
  rw [extract_eq_structured]
  unfold structuredAnalysis sectionPiece
  rw [sectionBody_of_none _ _ _ _ (sectionCapture_none _ _ _ h1),
      sectionBody_of_none _ _ _ _ (sectionCapture_none _ _ _ h2),
      sectionBody_of_none _ _ _ _ (sectionCapture_none _ _ _ h3),
      sectionBody_of_none _ _ _ _ (sectionCapture_none _ _ _ h4)]
  decide

/-- Witness for C3's amended theorem at a concrete header-free response. -/
theorem extract_no_headers_placeholders_witness :
    extractDetailedAnalysis "hello" =
      "**Overall Assessment**: No overall assessment provided.\n\n" ++
      "**Specific Issues**: No specific issues provided.\n\n" ++
      "**Reasoning**: No reasoning provided.\n\n" ++
      "**Recommendations**: No recommendations provided.\n\n" :=
  extract_no_headers_placeholders "hello" (by decide) (by decide) (by decide)
    (by decide)

/-- C4: the extractor marks a response safe exactly when its case-folded
text contains none of the three literal substrings, and a safe response
always receives the category safe. -/
theorem safe_keywords_iff (resp : String) (t : ContentType) :
    (isSafe resp = true ↔
      ¬(ciContains "unsafe".data resp.data = true ∨
        ciContains "violate".data resp.data = true ∨
        ciContains "inappropriate".data resp.data = true)) ∧
    (isSafe resp = true →
      determineCategoryFromAnalysis resp t (isSafe resp) = "safe") := by
  constructor
  · unfold isSafe
    simp [not_or, and_assoc]
  · intro h
    simp [determineCategoryFromAnalysis, h]

/-- Witness for C4 at a concrete keyword-free response. -/
theorem safe_keywords_iff_witness :
    determineCategoryFromAnalysis "all good" ContentType.text
      (isSafe "all good") = "safe" :=
  (safe_keywords_iff "all good" ContentType.text).2 (by decide)

/-- C5: every verdict the handler returns carries a confidence between
one half and ninety-nine hundredths; the fallback verdict's confidence
lies between eighty-five hundredths and ninety-nine hundredths when
safe and between sixty-five hundredths and eighty-four hundredths when
unsafe, and the extractor-derived confidence is clamped to the outer
interval. -/
theorem confidence_in_bounds (env : Env) (c : String) (t : ContentType) :
    (∀ r, (handler (some ⟨c, t⟩) env).1 = HttpOut.verdict r →
        1 / 2 ≤ r.confidence ∧ r.confidence ≤ 99 / 100) ∧
    ((createMockAnalysis c t).safe = true →
        85 / 100 ≤ (createMockAnalysis c t).confidence ∧
          (createMockAnalysis c t).confidence ≤ 99 / 100) ∧
    ((createMockAnalysis c t).safe = false →
        65 / 100 ≤ (createMockAnalysis c t).confidence ∧
          (createMockAnalysis c t).confidence ≤ 84 / 100) ∧
    (∀ resp s, 1 / 2 ≤ calculateConfidence resp s ∧
        calculateConfidence resp s ≤ 99 / 100) := by
  refine ⟨?_, mock_conf_safe_bounds c t, mock_conf_unsafe_bounds c t,
    calc_conf_bounds⟩
  intro r hr
  by_cases hc : c = ""
  · subst hc
    simp [handler] at hr
  · rcases handler_cases env c t hc with hm | ⟨text, _, he⟩
    · rw [hm] at hr
      have hre : r = createMockAnalysis c t := by
        cases hr
        rfl
      subst hre
      have hb1 := mock_conf_safe_bounds c t
      have hb2 := mock_conf_unsafe_bounds c t
      cases hs : (createMockAnalysis c t).safe
      · have := hb2 hs
        constructor <;> linarith
      · have := hb1 hs
        constructor <;> linarith
    · rw [he] at hr
      have hre : r = analysisResultOf text t := by
        cases hr
        rfl
      subst hre
      have := calc_conf_bounds text (isSafe text)
      constructor
      · exact this.1
      · exact this.2

/-- Witness for C5 at a concrete fallback verdict. -/
theorem confidence_in_bounds_witness :
    1 / 2 ≤ (createMockAnalysis "x" ContentType.text).confidence ∧
      (createMockAnalysis "x" ContentType.text).confidence ≤ 99 / 100 :=
  (confidence_in_bounds ⟨"", MediaOutcome.throwsErr, CompletionOutcome.throwsErr⟩
      "x" ContentType.text).1
    (createMockAnalysis "x" ContentType.text) rfl

/-- C6: when the credential is absent or blank, the handler performs no
network call at all (the call counter is zero) and immediately returns
the Fallback Synthesizer's verdict for the submitted content. -/
theorem unconfigured_no_network (env : Env) (c : String) (t : ContentType)
    (hk : jsTrim env.apiKey = "") (hc : c ≠ "") :
    handler (some ⟨c, t⟩) env =
      (HttpOut.verdict (createMockAnalysis c t), 0) := by
  simp [handler, hc, Or.inr hk]

/-- Witness for C6 with a blank credential. -/
theorem unconfigured_no_network_witness :
    jsTrim (" " : String) = "" ∧ ("x" : String) ≠ "" ∧
      handler (some ⟨"x", ContentType.text⟩)
          ⟨" ", MediaOutcome.throwsErr, CompletionOutcome.ok "ignored"⟩ =
        (HttpOut.verdict (createMockAnalysis "x" ContentType.text), 0) :=
  ⟨by decide, by decide,
    unconfigured_no_network ⟨" ", MediaOutcome.throwsErr, CompletionOutcome.ok "ignored"⟩
      "x" ContentType.text (by decide) (by decide)⟩

/-- C7: the extractor's confidence is the base value (eight tenths if
safe, else three quarters) plus the single adjustment selected by the
priority chain on certainty language, clamped afterwards; in particular
any response containing the strong word definitely receives only the
additive fifteen hundredths, even if it also contains uncertain. -/
theorem confidence_priority_chain (resp : String) (s : Bool) :
    calculateConfidence resp s =
      max (1 / 2) (min (99 / 100)
        ((if s then (8 : ℚ) / 10 else 75 / 100) + confidenceAdjustSpec resp)) ∧
    (ciContains "definitely".data resp.data = true →
      calculateConfidence resp s = if s then (95 : ℚ) / 100 else 9 / 10) := by
  constructor
  · simp only [calculateConfidence, confidenceAdjustSpec]
    split_ifs <;> ring_nf
  · intro h
    simp only [calculateConfidence, h, Bool.true_or, if_true]
    cases s <;> norm_num [min_def, max_def]

/-- Witness for C7: a response containing both definitely and uncertain
gets exactly the strong-certainty adjustment. -/
theorem confidence_priority_chain_witness :
    calculateConfidence "definitely uncertain" true = 95 / 100 := by
  have h := (confidence_priority_chain "definitely uncertain" true).2 (by decide)
  simpa using h

/-- C8: for an unsafe response, the reason is determined in priority
order (the because-capture, else the issue-capture, else the literal
fallback string): the code's extraction agrees with that specification
order, and on the concrete threat sentence the extractor yields unsafe
with exactly the captured reason. -/
theorem reason_extraction_order (resp : String) :
    extractReasonUnsafe resp = reasonSpec resp ∧
      isSafe "This content is unsafe because it contains a threat." = false ∧
      (analysisResultOf "This content is unsafe because it contains a threat."
          ContentType.text).safe = false ∧
      (analysisResultOf "This content is unsafe because it contains a threat."
          ContentType.text).reason = "it contains a threat" := by
  refine ⟨?_, by decide, by decide, by decide⟩
  unfold extractReasonUnsafe reasonSpec
  cases hb : firstBecause resp.data with
  | some g => rfl
  | none =>
    by_cases hi : ciContains "issue".data resp.data = true
    · simp [hi]
    · have hif : ciContains "issue".data resp.data = false := by
        simpa using hi
      simp [hif, firstIssue_none resp.data hif]

/-- C9: for every input the extracted detailedAnalysis is exactly the
four labelled sections in their fixed order, each body non-empty and
rendered as the not-provided placeholder when its regex found nothing,
so the result is never empty and the cleaned-raw-text branch is
unreachable. -/
theorem extract_always_structured (resp : String) :
    extractDetailedAnalysis resp =
      sectionPiece "Overall Assessment" hdrOverall othersOverall resp ++
        sectionPiece "Specific Issues" hdrIssues othersIssues resp ++
        sectionPiece "Reasoning" hdrReasoning othersReasoning resp ++
        sectionPiece "Recommendations" hdrRecommend othersRecommend resp ∧
    (∀ title hdr others, sectionPiece title hdr others resp =
        "**" ++ title ++ "**: " ++ sectionBody title hdr others resp ++ "\n\n") ∧
    (∀ title hdr others, sectionBody title hdr others resp ≠ "") ∧
    (∀ title hdr others, sectionCapture hdr others resp.data = none →
        sectionBody title hdr others resp = noProvided title) ∧
    extractDetailedAnalysis resp ≠ "" := by
  refine ⟨extract_eq_structured resp, fun _ _ _ => rfl,
    fun title hdr others => sectionBody_ne title hdr others resp,
    fun title hdr others => sectionBody_of_none title hdr others resp, ?_⟩
  rw [extract_eq_structured]
  exact structuredAnalysis_ne resp

/-- Witness for C9 at a concrete header-free response. -/
theorem extract_always_structured_witness :
    sectionBody "Overall Assessment" hdrOverall othersOverall "hello" =
        noProvided "Overall Assessment" ∧
      extractDetailedAnalysis "hello" ≠ "" :=
  ⟨(extract_always_structured "hello").2.2.2.1 "Overall Assessment" hdrOverall
      othersOverall (by decide),
    (extract_always_structured "hello").2.2.2.2⟩

/-- C10: an empty content submission is rejected with a 400 error
object carrying safe false and the reason Missing content, before the
credential check and any network call: the response is independent of
the environment and the call counter is zero. -/
theorem missing_content_400 (env : Env) (t : ContentType) :
    handler (some ⟨"", t⟩) env =
      (HttpOut.errorResp 400 "Content is required" false "Missing content", 0) := by
  simp [handler]

end SafeNet
